import Mathlib

set_option autoImplicit false

/-!
Verification of the cart and order-assembly engine of the silvers storefront.

The definitions below are a shallow embedding of `src/lib/cart-context.tsx`
(cart state, `addItem`, `updateQuantity`, `removeItem`, `clearCart`, the
`totals` memo) and of `handlePlaceOrder` in
`src/components/category-products.tsx` (order assembly).  JavaScript numbers
are modelled as rationals, `Math.round` as floor of `x + 1/2` (round half
toward positive infinity, as in JS), and the asynchronous storage writes are
elided: every claim under study is about the in-memory state and the list of
document-store writes issued.
-/

namespace Silvers

/-- `Math.round(x * 100) / 100`, the rounding used for line totals in
`cart-context.tsx`.  JS `Math.round y = ⌊y + 1/2⌋`. -/
def round2 (x : ℚ) : ℚ := (⌊x * 100 + 1 / 2⌋ : ℚ) / 100

/-- One cart line, mirroring the `CartItem` interface of `cart-context.tsx`.
Local ids and timestamps are opaque; they are modelled as naturals. -/
structure CartItem where
  id : Nat
  productId : String
  itemId : Option String
  title : String
  variantTitle : Option String
  price : ℚ
  quantity : Int
  total : ℚ
  image : Option String
  sku : Option String
  sessionId : Option String
  userId : Option String
  createdAt : Nat
  deriving DecidableEq, Repr

/-- The argument of `addItem`: `Omit<CartItem, 'id' | 'total' | 'createdAt'>`. -/
structure AddRequest where
  productId : String
  itemId : Option String
  title : String
  variantTitle : Option String
  price : ℚ
  quantity : Int
  image : Option String
  sku : Option String
  sessionId : Option String
  userId : Option String
  deriving DecidableEq, Repr

/-- In-memory cart state.  `generateId` in the source draws a fresh random
string id; it is determinised here as a counter, which preserves the one
property the code relies on: a freshly generated id differs from every id
already in the cart. -/
structure CartState where
  items : List CartItem
  nextId : Nat
  deriving DecidableEq, Repr

def emptyCart : CartState := ⟨[], 0⟩

/-- The match test of `addItem`:
`item.productId === newItem.productId && item.itemId === newItem.itemId`. -/
def sameLine (it : CartItem) (r : AddRequest) : Bool :=
  it.productId = r.productId ∧ it.itemId = r.itemId

/-- The merge branch of `addItem`: spread of the existing item with new
`quantity` and `total`, recomputed from the EXISTING item's price. -/
def mergeInto (ex : CartItem) (r : AddRequest) : CartItem :=
  { ex with
    quantity := ex.quantity + r.quantity
    total := round2 (ex.price * ((ex.quantity + r.quantity : ℤ) : ℚ)) }

/-- `addItem` of `cart-context.tsx`.  The thrown-and-caught validation error
surfaces as the second component (the source shows an alert and leaves the
state unchanged); `none` means the mutation went through. -/
def addItem (s : CartState) (r : AddRequest) (now : Nat) : CartState × Option String :=
  if r.productId = "" ∨ r.title = "" ∨ r.price < 0 ∨ r.quantity ≤ 0 then
    (s, some "Invalid item data")
  else
    match s.items.find? (fun it => sameLine it r) with
    | some ex =>
        ({ s with items := s.items.map (fun it => if it.id = ex.id then mergeInto it r else it) },
         none)
    | none =>
        ({ items := s.items ++
            [{ id := s.nextId, productId := r.productId, itemId := r.itemId,
               title := r.title, variantTitle := r.variantTitle, price := r.price,
               quantity := r.quantity,
               total := round2 (r.price * (r.quantity : ℚ)),
               image := r.image, sku := r.sku, sessionId := r.sessionId,
               userId := r.userId, createdAt := now }],
           nextId := s.nextId + 1 }, none)

/-- `updateQuantity` of `cart-context.tsx`.  A negative quantity throws
(`'Quantity cannot be negative'`), which the surrounding catch swallows after
alerting, leaving the state unchanged; quantity `0` filters the line out;
a positive quantity rewrites the matching line. -/
def updateQuantity (s : CartState) (itemId : Nat) (quantity : Int) :
    CartState × Option String :=
  if quantity < 0 then
    (s, some "Quantity cannot be negative")
  else if quantity = 0 then
    ({ s with items := s.items.filter (fun it => it.id ≠ itemId) }, none)
  else
    ({ s with items := s.items.map (fun it =>
        if it.id = itemId then
          { it with quantity := quantity, total := round2 (it.price * (quantity : ℚ)) }
        else it) }, none)

/-- `removeItem` of `cart-context.tsx`: filter by id, never fails. -/
def removeItem (s : CartState) (itemId : Nat) : CartState :=
  { s with items := s.items.filter (fun it => it.id ≠ itemId) }

/-- `clearCart` of `cart-context.tsx` (the storage erasure is elided). -/
def clearCart (s : CartState) : CartState :=
  { s with items := [] }

/-- `getItem` of `cart-context.tsx`. -/
def getItem (s : CartState) (itemId : Nat) : Option CartItem :=
  s.items.find? (fun it => it.id = itemId)

/-- `hasItem` of `cart-context.tsx`:
`items.some(item => item.productId === productId && (itemId ? item.itemId === itemId : !item.itemId))`. -/
def variantMatches (it : CartItem) (itemId : Option String) : Bool :=
  match itemId with
  | some v => it.itemId = some v
  | none => it.itemId = none

def hasItem (s : CartState) (productId : String) (itemId : Option String) : Bool :=
  s.items.any (fun it => decide (it.productId = productId) && variantMatches it itemId)

/-- The `CartTotals` record of `cart-context.tsx`. -/
structure CartTotals where
  subtotal : ℚ
  tax : ℚ
  shipping : ℚ
  discount : ℚ
  total : ℚ
  deriving DecidableEq, Repr

/-- The `totals` memo of `cart-context.tsx`: a plain reduce of the line
totals, tax as `subtotal * taxRate`, shipping and discount fixed at `0`,
and `total = subtotal + tax + shipping - discount`.  No rounding, no
clamping appears in the source. -/
def calcTotals (items : List CartItem) (taxRate : ℚ) : CartTotals :=
  let subtotal := items.foldl (fun sum it => sum + it.total) 0
  let tax := subtotal * taxRate
  let shipping : ℚ := 0
  let discount : ℚ := 0
  let total := subtotal + tax + shipping - discount
  { subtotal := subtotal, tax := tax, shipping := shipping,
    discount := discount, total := total }

/-- Sum of the `total` fields of a line list (specification-side helper). -/
def sumTotals (items : List CartItem) : ℚ :=
  (items.map CartItem.total).sum

/-! ### Order assembly (`handlePlaceOrder` in `category-products.tsx`) -/

/-- A saved delivery address (`Address` in `address-service.ts`). -/
structure Address where
  id : Nat
  name : String
  street : String
  city : String
  state : String
  zipCode : String
  country : Option String
  phone : Option String
  deriving DecidableEq, Repr

/-- The customer profile fields `handlePlaceOrder` reads. -/
structure Customer where
  id : Nat
  name : String
  phone : Option String
  deriving DecidableEq, Repr

/-- JS `a || b` on an optional string, where the empty string is falsy. -/
def jsOrStr (a : Option String) (b : String) : String :=
  match a with
  | some s => if s = "" then b else s
  | none => b

/-- JS `a || b` where both sides are optional strings. -/
def jsOrOpt (a : Option String) (b : Option String) : Option String :=
  match a with
  | some s => if s = "" then b else some s
  | none => b

/-- The `mappedShippingAddress` object built by `handlePlaceOrder`. -/
structure MappedAddress where
  id : Nat
  name : String
  firstName : String
  lastName : String
  address1 : String
  street : String
  city : String
  province : String
  state : String
  zip : String
  zipCode : String
  country : String
  phone : Option String
  deriving DecidableEq, Repr

def mapShippingAddress (a : Address) : MappedAddress :=
  { id := a.id
    name := a.name
    firstName := (a.name.splitOn " ").headD ""
    lastName := String.intercalate " " ((a.name.splitOn " ").drop 1)
    address1 := a.street
    street := a.street
    city := a.city
    province := a.state
    state := a.state
    zip := a.zipCode
    zipCode := a.zipCode
    country := jsOrStr a.country "United States"
    phone := a.phone }

/-- The `orderData` record written for the order header. -/
structure OrderData where
  orderNumber : String
  referenceId : Nat
  createdAt : Nat
  customerId : Option Nat
  customerName : String
  customerEmail : Option String
  customerPhone : Option String
  status : String
  fulfillmentStatus : String
  paymentStatus : String
  currency : String
  subtotal : ℚ
  taxAmount : ℚ
  shippingAmount : ℚ
  discountAmount : ℚ
  total : ℚ
  totalPaid : ℚ
  totalRefunded : ℚ
  shippingAddress : MappedAddress
  billingAddress : MappedAddress
  source : String
  market : String
  deriving DecidableEq, Repr

/-- One record of `orderItemTransactions`. -/
structure OrderItemData where
  productId : String
  itemId : Option String
  sku : Option String
  title : String
  variantTitle : Option String
  quantity : Int
  price : ℚ
  lineTotal : ℚ
  taxRate : ℚ
  taxAmount : ℚ
  discountAmount : ℚ
  fulfillmentStatus : String
  deriving DecidableEq, Repr

/-- The per-line record written by `orderItemTransactions`: note the
hardcoded `taxRate: 0.08` and `taxAmount: item.total * 0.08`. -/
def orderItemData (it : CartItem) : OrderItemData :=
  { productId := it.productId
    itemId := it.itemId
    sku := it.sku
    title := it.title
    variantTitle := it.variantTitle
    quantity := it.quantity
    price := it.price
    lineTotal := it.total
    taxRate := 8 / 100
    taxAmount := it.total * (8 / 100)
    discountAmount := 0
    fulfillmentStatus := "unfulfilled" }

/-- One operation inside a `db.transact` batch. -/
inductive Write where
  | orderUpdate (orderId : Nat) (data : OrderData)
  | orderItemUpdate (itemRecordId : Nat) (data : OrderItemData)
  | linkOrderItem (orderId : Nat) (itemRecordId : Nat)
  deriving DecidableEq, Repr

def writeHeader : Write → Option (Nat × OrderData)
  | .orderUpdate o d => some (o, d)
  | _ => none

def writeItemData : Write → Option OrderItemData
  | .orderItemUpdate _ d => some d
  | _ => none

def writeItemId : Write → Option Nat
  | .orderItemUpdate i _ => some i
  | _ => none

def writeLink : Write → Option (Nat × Nat)
  | .linkOrderItem o i => some (o, i)
  | _ => none

/-- Observable outcome of one `handlePlaceOrder` run: the alert shown on a
failure path (if any), every `db.transact` batch issued, the cart state when
the handler returns, and the order header data written on success. -/
structure PlaceOrderOutcome where
  errorAlert : Option String
  batches : List (List Write)
  finalCart : CartState
  placedOrder : Option OrderData
  deriving Repr

/-- The `orderData` record built by `handlePlaceOrder` for the order header
(`orderId` is determinised as `idBase`). -/
def orderDataOf (cart : CartState) (taxRate : ℚ) (addr : Address)
    (customer : Option Customer) (userEmail : Option String) (orderNumber : String)
    (idBase now : Nat) : OrderData :=
  { orderNumber := orderNumber
    referenceId := idBase
    createdAt := now
    customerId := customer.map Customer.id
    customerName := jsOrStr (customer.map Customer.name) addr.name
    customerEmail := userEmail
    customerPhone := jsOrOpt addr.phone (customer.bind Customer.phone)
    status := "pending"
    fulfillmentStatus := "unfulfilled"
    paymentStatus := "pending"
    currency := "USD"
    subtotal := (calcTotals cart.items taxRate).subtotal
    taxAmount := (calcTotals cart.items taxRate).tax
    shippingAmount := (calcTotals cart.items taxRate).shipping
    discountAmount := (calcTotals cart.items taxRate).discount
    total := (calcTotals cart.items taxRate).total
    totalPaid := 0
    totalRefunded := 0
    shippingAddress := mapShippingAddress addr
    billingAddress := mapShippingAddress addr
    source := "storefront"
    market := "online" }

/-- The `orderItemIds` array: one fresh `id()` per cart line, determinised
as `idBase + 1 + i`. -/
def orderItemIdsOf (cart : CartState) (idBase : Nat) : List Nat :=
  (List.range cart.items.length).map (fun i => idBase + 1 + i)

/-- The `orderItemTransactions` array: one `orderitems` upsert per cart
line. -/
def orderItemTransactions (cart : CartState) (idBase : Nat) : List Write :=
  (cart.items.zip (orderItemIdsOf cart idBase)).map
    (fun p => Write.orderItemUpdate p.2 (orderItemData p.1))

/-- The relationship-linking writes of the `db.transact` call. -/
def linkTransactions (cart : CartState) (idBase : Nat) : List Write :=
  (orderItemIdsOf cart idBase).map (fun iid => Write.linkOrderItem idBase iid)

/-- The single `db.transact` argument list: order header, item upserts,
links. -/
def successBatch (cart : CartState) (taxRate : ℚ) (addr : Address)
    (customer : Option Customer) (userEmail : Option String) (orderNumber : String)
    (idBase now : Nat) : List Write :=
  Write.orderUpdate idBase (orderDataOf cart taxRate addr customer userEmail orderNumber idBase now)
    :: (orderItemTransactions cart idBase ++ linkTransactions cart idBase)

/-- `handlePlaceOrder` of `category-products.tsx`.  `id()` draws fresh uuids;
they are determinised as `idBase`, `idBase + 1 + i`.  `orderNumber` is a
random token, passed in as a parameter.  `transactOk` is the outcome of the
external `db.transact` call: on `false` the catch block alerts and leaves the
cart untouched. -/
def handlePlaceOrder (cart : CartState) (taxRate : ℚ) (selectedAddress : Option Address)
    (customer : Option Customer) (userEmail : Option String) (orderNumber : String)
    (idBase : Nat) (now : Nat) (transactOk : Bool) : PlaceOrderOutcome :=
  if cart.items.length = 0 then
    { errorAlert := some "Empty Cart", batches := [], finalCart := cart, placedOrder := none }
  else
    match selectedAddress with
    | none =>
        { errorAlert := some "Address Required", batches := [], finalCart := cart,
          placedOrder := none }
    | some addr =>
        let orderData := orderDataOf cart taxRate addr customer userEmail orderNumber idBase now
        let batch := successBatch cart taxRate addr customer userEmail orderNumber idBase now
        if transactOk then
          { errorAlert := none, batches := [batch], finalCart := clearCart cart,
            placedOrder := some orderData }
        else
          { errorAlert := some "Error", batches := [batch], finalCart := cart,
            placedOrder := none }

/-! ### Concrete fixtures used by counterexamples and witnesses -/

def sampleItem : CartItem :=
  { id := 0, productId := "p", itemId := none, title := "T", variantTitle := none,
    price := 1, quantity := 1, total := 1, image := none, sku := none,
    sessionId := none, userId := none, createdAt := 0 }

def oneItemCart : CartState := ⟨[sampleItem], 1⟩

def sampleItem2 : CartItem :=
  { sampleItem with id := 1, productId := "q", title := "U" }

def twoItemCart : CartState := ⟨[sampleItem, sampleItem2], 2⟩

def goodAddr : Address :=
  { id := 0, name := "Jane Doe", street := "1 Main", city := "Springfield",
    state := "IL", zipCode := "62704", country := none, phone := none }

/-- An address whose street, city, region and postal fields are all empty. -/
def blankAddr : Address :=
  { id := 1, name := "", street := "", city := "", state := "", zipCode := "",
    country := none, phone := none }

/-! ### Rounding lemmas -/

lemma round2_int_div (m : ℤ) : round2 ((m : ℚ) / 100) = (m : ℚ) / 100 := by
  unfold round2
  have h1 : (m : ℚ) / 100 * 100 + 1 / 2 = 1 / 2 + (m : ℚ) := by
    field_simp
    ring
  rw [h1, Int.floor_add_int]
  norm_num

lemma round2_fix_exists_int {a : ℚ} (h : round2 a = a) : ∃ m : ℤ, a = (m : ℚ) / 100 :=
  ⟨⌊a * 100 + 1 / 2⌋, h.symm⟩

lemma round2_fix_add {a b : ℚ} (ha : round2 a = a) (hb : round2 b = b) :
    round2 (a + b) = a + b := by
  obtain ⟨m, rfl⟩ := round2_fix_exists_int ha
  obtain ⟨n, rfl⟩ := round2_fix_exists_int hb
  have h : (m : ℚ) / 100 + (n : ℚ) / 100 = ((m + n : ℤ) : ℚ) / 100 := by
    push_cast
    ring
  rw [h, round2_int_div]

lemma round2_zero : round2 0 = 0 := by
  have h := round2_int_div 0
  simpa using h

/-- C9: the rounding helper is idempotent. -/
theorem round2_idempotent (x : ℚ) : round2 (round2 x) = round2 x :=
  round2_int_div ⌊x * 100 + 1 / 2⌋

/-! ### Totals calculator -/

lemma foldl_add_totals (items : List CartItem) (init : ℚ) :
    items.foldl (fun sum it => sum + it.total) init = init + sumTotals items := by
  induction items generalizing init with
  | nil => simp [sumTotals]
  | cons hd tl ih =>
      simp only [List.foldl_cons, ih, sumTotals, List.map_cons, List.sum_cons]
      ring

lemma calcTotals_subtotal (items : List CartItem) (taxRate : ℚ) :
    (calcTotals items taxRate).subtotal = sumTotals items := by
  simp [calcTotals, foldl_add_totals]

lemma round2_fix_sum (items : List CartItem)
    (h : ∀ it ∈ items, round2 it.total = it.total) :
    round2 (sumTotals items) = sumTotals items := by
  induction items with
  | nil => simpa [sumTotals] using round2_zero
  | cons hd tl ih =>
      have hhd : round2 hd.total = hd.total := h hd (List.mem_cons_self hd tl)
      have htl : round2 (sumTotals tl) = sumTotals tl :=
        ih fun it hit => h it (List.mem_cons_of_mem hd hit)
      simpa [sumTotals] using round2_fix_add hhd htl

lemma sumTotals_nonneg (items : List CartItem)
    (h : ∀ it ∈ items, 0 ≤ it.total) : 0 ≤ sumTotals items := by
  refine List.sum_nonneg ?_
  intro x hx
  obtain ⟨it, hit, rfl⟩ := List.mem_map.mp hx
  exact h it hit

/-- C5 counterexample: with a single line of total `1` and a tax rate of
`1/8`, the calculator returns tax `1/8`, which is NOT `round2(subtotal × rate)
= 13/100`; the source applies no rounding to the tax. -/
theorem calcTotals_tax_not_rounded :
    (calcTotals [sampleItem] (1 / 8)).tax ≠
      round2 ((calcTotals [sampleItem] (1 / 8)).subtotal * (1 / 8)) := by
  norm_num [calcTotals, sampleItem, round2]

/-- C5 (amended): the calculator returns the EXACT sum of line totals as
subtotal (which is already a fixed point of `round2` whenever every line
total is), tax as the unrounded product `subtotal × taxRate`, shipping and
discount hardcoded to `0`, and `total = subtotal + tax` with no clamping —
which is nevertheless non-negative whenever line totals and rate are. -/
theorem calcTotals_spec (items : List CartItem) (taxRate : ℚ)
    (h2 : ∀ it ∈ items, round2 it.total = it.total)
    (hnn : ∀ it ∈ items, 0 ≤ it.total)
    (hr : 0 ≤ taxRate) :
    (calcTotals items taxRate).subtotal = sumTotals items ∧
    round2 (calcTotals items taxRate).subtotal = (calcTotals items taxRate).subtotal ∧
    (calcTotals items taxRate).tax = (calcTotals items taxRate).subtotal * taxRate ∧
    (calcTotals items taxRate).shipping = 0 ∧
    (calcTotals items taxRate).discount = 0 ∧
    (calcTotals items taxRate).total =
      (calcTotals items taxRate).subtotal + (calcTotals items taxRate).tax ∧
    0 ≤ (calcTotals items taxRate).total := by
  have hsub : (calcTotals items taxRate).subtotal = sumTotals items :=
    calcTotals_subtotal items taxRate
  have hsubnn : 0 ≤ (calcTotals items taxRate).subtotal := by
    rw [hsub]; exact sumTotals_nonneg items hnn
  have htax : (calcTotals items taxRate).tax =
      (calcTotals items taxRate).subtotal * taxRate := by
    simp [calcTotals]
  refine ⟨hsub, ?_, htax, by simp [calcTotals], by simp [calcTotals], ?_, ?_⟩
  · rw [hsub]; exact round2_fix_sum items h2
  · simp [calcTotals]
  · have : (calcTotals items taxRate).total =
        (calcTotals items taxRate).subtotal + (calcTotals items taxRate).tax := by
      simp [calcTotals]
    rw [this, htax]
    have := mul_nonneg hsubnn hr
    linarith

/-- Witness for C5 (amended) at a concrete cart. -/
theorem calcTotals_spec_witness :
    (calcTotals [sampleItem] (1 / 10)).subtotal = sumTotals [sampleItem] :=
  (calcTotals_spec [sampleItem] (1 / 10)
    (by
      intro it hit
      rw [List.mem_singleton] at hit
      subst hit
      norm_num [sampleItem, round2])
    (by
      intro it hit
      rw [List.mem_singleton] at hit
      subst hit
      norm_num [sampleItem])
    (by norm_num)).1

/-! ### updateQuantity -/

/-- C3 counterexample: on a cart holding the line with id `0`,
`updateQuantity 0 (-1)` does NOT remove the line — the negative quantity is
rejected (the thrown error is caught and alerted) and the cart is unchanged. -/
theorem updateQuantity_neg_one_keeps_line :
    (updateQuantity oneItemCart 0 (-1)).1.items = [sampleItem] ∧
    (updateQuantity oneItemCart 0 (-1)).2 = some "Quantity cannot be negative" := by
  constructor <;> rfl

/-- C3 (amended): `updateQuantity lid 0` removes the line (the id is absent
afterwards) and reports no error, while `updateQuantity lid (-1)` leaves the
cart unchanged and reports the caught negative-quantity error internally;
neither call throws past the handler. -/
theorem updateQuantity_zero_removes_neg_keeps (s : CartState) (lid : Nat) :
    (∀ it ∈ (updateQuantity s lid 0).1.items, it.id ≠ lid) ∧
    (updateQuantity s lid 0).2 = none ∧
    updateQuantity s lid (-1) = (s, some "Quantity cannot be negative") := by
  refine ⟨?_, ?_, ?_⟩
  · intro it hit
    simp only [updateQuantity] at hit
    norm_num at hit
    exact hit.2
  · simp [updateQuantity]
  · simp [updateQuantity]

/-- C4 counterexample: updating an id that is not in the cart with a positive
quantity silently succeeds as a no-op — no `LineNotFound`-style error is
produced, contrary to the claim. -/
theorem updateQuantity_missing_id_silent :
    updateQuantity oneItemCart 5 2 = (oneItemCart, none) := by
  rfl

/-- C4 (amended): for an id absent from the cart and a positive quantity,
`updateQuantity` is a silent no-op — the cart is unchanged and no error is
reported, so callers cannot detect a stale reference. -/
theorem updateQuantity_missing_id_noop (s : CartState) (lid : Nat) (q : Int)
    (hq : 0 < q) (habs : ∀ it ∈ s.items, it.id ≠ lid) :
    updateQuantity s lid q = (s, none) := by
  unfold updateQuantity
  rw [if_neg (by omega), if_neg (by omega)]
  have hmap : s.items.map (fun it =>
      if it.id = lid then
        { it with quantity := q, total := round2 (it.price * (q : ℚ)) }
      else it) = s.items := by
    have h1 : s.items.map (fun it =>
        if it.id = lid then
          { it with quantity := q, total := round2 (it.price * (q : ℚ)) }
        else it) = s.items.map id := by
      refine List.map_congr_left ?_
      intro a ha
      simp [if_neg (habs a ha)]
    rw [h1, List.map_id]
  rw [hmap]

/-- Witness for C4 (amended). -/
theorem updateQuantity_missing_id_noop_witness :
    updateQuantity twoItemCart 7 3 = (twoItemCart, none) :=
  updateQuantity_missing_id_noop twoItemCart 7 3 (by decide) (by decide)

/-! ### addItem: merge invariant and frame conditions -/

/-- No two lines of the list share a `(productId, itemId)` pair. -/
def distinctPairs (items : List CartItem) : Prop :=
  items.Pairwise (fun a b => ¬(a.productId = b.productId ∧ a.itemId = b.itemId))

/-- Run a sequence of `addItem` calls against the empty cart. -/
def addAll (rs : List AddRequest) (now : Nat) : CartState :=
  rs.foldl (fun s r => (addItem s r now).1) emptyCart

/-- Total requested quantity of a sequence of add requests. -/
def qsum (rs : List AddRequest) : Int :=
  (rs.map AddRequest.quantity).sum

lemma keep_productId (ex : CartItem) (r : AddRequest) (it : CartItem) :
    (if it.id = ex.id then mergeInto it r else it).productId = it.productId := by
  split <;> rfl

lemma keep_itemId (ex : CartItem) (r : AddRequest) (it : CartItem) :
    (if it.id = ex.id then mergeInto it r else it).itemId = it.itemId := by
  split <;> rfl

lemma distinctPairs_addItem (s : CartState) (r : AddRequest) (now : Nat)
    (h : distinctPairs s.items) : distinctPairs ((addItem s r now).1.items) := by
  unfold addItem
  split
  · exact h
  · split
    · next ex hfind =>
        unfold distinctPairs at h ⊢
        simp only
        rw [List.pairwise_map]
        refine h.imp ?_
        intro a b hab
        rw [keep_productId, keep_itemId, keep_productId, keep_itemId]
        exact hab
    · next hfind =>
        unfold distinctPairs at h ⊢
        simp only
        rw [List.pairwise_append]
        refine ⟨h, List.pairwise_singleton _ _, ?_⟩
        intro a ha b hb
        rw [List.mem_singleton] at hb
        subst hb
        have hnot := List.find?_eq_none.mp hfind a ha
        simp only [sameLine, decide_eq_true_eq] at hnot
        simpa using hnot

lemma distinctPairs_foldl (now : Nat) :
    ∀ (rs : List AddRequest) (s : CartState), distinctPairs s.items →
      distinctPairs ((rs.foldl (fun s r => (addItem s r now).1) s).items) := by
  intro rs
  induction rs with
  | nil => intro s hs; exact hs
  | cons r rs ih =>
      intro s hs
      exact ih _ (distinctPairs_addItem s r now hs)

/-- The cart consists of exactly one line carrying key `(p, v)`, price `u`
and accumulated quantity `q`. -/
def singleLine (p : String) (v : Option String) (u : ℚ) (q : Int) (s : CartState) : Prop :=
  ∃ itm : CartItem, s.items = [itm] ∧ itm.productId = p ∧ itm.itemId = v ∧
    itm.price = u ∧ itm.quantity = q ∧ itm.total = round2 (u * (q : ℚ))

lemma addItem_single_step (p : String) (v : Option String) (u : ℚ)
    (hp : p ≠ "") (hu : 0 ≤ u)
    (s : CartState) (q : Int) (r : AddRequest) (now : Nat)
    (hr : r.productId = p ∧ r.itemId = v ∧ r.price = u ∧ r.title ≠ "" ∧ 1 ≤ r.quantity)
    (hs : singleLine p v u q s) :
    singleLine p v u (q + r.quantity) ((addItem s r now).1) := by
  obtain ⟨itm, hitems, hpid, hvid, hprice, hq, ht⟩ := hs
  obtain ⟨hr1, hr2, hr3, hr4, hr5⟩ := hr
  have hcond : ¬(r.productId = "" ∨ r.title = "" ∨ r.price < 0 ∨ r.quantity ≤ 0) := by
    push_neg
    exact ⟨by rw [hr1]; exact hp, hr4, by rw [hr3]; linarith, by omega⟩
  have hfind : s.items.find? (fun it => sameLine it r) = some itm := by
    rw [hitems]
    simp [List.find?, sameLine, hpid, hvid, hr1, hr2]
  refine ⟨mergeInto itm r, ?_, ?_, ?_, ?_, ?_, ?_⟩
  · simp only [addItem, if_neg hcond, hfind]
    rw [hitems]
    simp [mergeInto]
  · simp [mergeInto, hpid]
  · simp [mergeInto, hvid]
  · simp [mergeInto, hprice]
  · simp [mergeInto, hq]
  · simp [mergeInto, hprice, hq]

lemma addItem_empty_step (p : String) (v : Option String) (u : ℚ)
    (hp : p ≠ "") (hu : 0 ≤ u)
    (s : CartState) (r : AddRequest) (now : Nat)
    (hr : r.productId = p ∧ r.itemId = v ∧ r.price = u ∧ r.title ≠ "" ∧ 1 ≤ r.quantity)
    (hs : s.items = []) :
    singleLine p v u r.quantity ((addItem s r now).1) := by
  obtain ⟨hr1, hr2, hr3, hr4, hr5⟩ := hr
  have hcond : ¬(r.productId = "" ∨ r.title = "" ∨ r.price < 0 ∨ r.quantity ≤ 0) := by
    push_neg
    exact ⟨by rw [hr1]; exact hp, hr4, by rw [hr3]; linarith, by omega⟩
  have hfind : s.items.find? (fun it => sameLine it r) = none := by
    rw [hs]; rfl
  refine ⟨⟨s.nextId, r.productId, r.itemId, r.title, r.variantTitle, r.price,
      r.quantity, round2 (r.price * (r.quantity : ℚ)), r.image, r.sku,
      r.sessionId, r.userId, now⟩,
    ?_, hr1, hr2, hr3, rfl, by rw [hr3]⟩
  simp only [addItem, if_neg hcond, hfind]
  rw [hs]
  simp

lemma addAll_single (p : String) (v : Option String) (u : ℚ)
    (hp : p ≠ "") (hu : 0 ≤ u) (now : Nat) :
    ∀ (rs : List AddRequest) (s : CartState) (q : Int),
      (∀ r ∈ rs, r.productId = p ∧ r.itemId = v ∧ r.price = u ∧ r.title ≠ "" ∧ 1 ≤ r.quantity) →
      singleLine p v u q s →
      singleLine p v u (q + qsum rs) (rs.foldl (fun s r => (addItem s r now).1) s) := by
  intro rs
  induction rs with
  | nil =>
      intro s q _ hs
      simpa [qsum] using hs
  | cons r rs ih =>
      intro s q hall hs
      have hstep := addItem_single_step p v u hp hu s q r now
        (hall r (List.mem_cons_self r rs)) hs
      have hrest := ih ((addItem s r now).1) (q + r.quantity)
        (fun x hx => hall x (List.mem_cons_of_mem r hx)) hstep
      have hsum : q + r.quantity + qsum rs = q + qsum (r :: rs) := by
        simp [qsum]
        ring
      rw [List.foldl_cons]
      rw [hsum] at hrest
      exact hrest

/-- C1: every sequence of `addItem` calls keeps at most one line per distinct
`(productId, variantId)` pair, and a sequence of valid requests sharing one
key and unit price ends in exactly one line carrying the summed quantity and
`round2(unitPrice × summedQuantity)` as line total. -/
theorem addItem_merge_invariant (now : Nat) (rs : List AddRequest) :
    distinctPairs (addAll rs now).items ∧
    ∀ (p : String) (v : Option String) (u : ℚ),
      rs ≠ [] →
      (∀ r ∈ rs, r.productId = p ∧ r.itemId = v ∧ r.price = u ∧ r.title ≠ "" ∧ 1 ≤ r.quantity) →
      p ≠ "" → 0 ≤ u →
      ∃ itm : CartItem, (addAll rs now).items = [itm] ∧ itm.productId = p ∧
        itm.itemId = v ∧ itm.quantity = qsum rs ∧
        itm.total = round2 (u * ((qsum rs : ℤ) : ℚ)) := by
  constructor
  · exact distinctPairs_foldl now rs emptyCart List.Pairwise.nil
  · intro p v u hne hall hp hu
    match rs, hne with
    | r :: rs, _ =>
        have hbase := addItem_empty_step p v u hp hu emptyCart r now
          (hall r (List.mem_cons_self r rs)) rfl
        have hrest := addAll_single p v u hp hu now rs ((addItem emptyCart r now).1)
          r.quantity (fun x hx => hall x (List.mem_cons_of_mem r hx)) hbase
        have hsum : r.quantity + qsum rs = qsum (r :: rs) := by
          simp [qsum]
        rw [hsum] at hrest
        obtain ⟨itm, h1, h2, h3, h4, h5, h6⟩ := hrest
        exact ⟨itm, h1, h2, h3, h5, h6⟩

def reqA : AddRequest :=
  { productId := "p1", itemId := none, title := "Ring", variantTitle := none,
    price := 100, quantity := 1, image := none, sku := none,
    sessionId := none, userId := none }

def reqA2 : AddRequest := { reqA with quantity := 2 }

/-- Witness for C1: adding quantities 1 and 2 of the same product yields one
line of quantity 3. -/
theorem addItem_merge_invariant_witness :
    (addAll [reqA, reqA2] 0).items.map CartItem.quantity = [3] := by
  obtain ⟨itm, h1, _, _, hq, _⟩ :=
    (addItem_merge_invariant 0 [reqA, reqA2]).2 "p1" none 100 (by decide)
      (by
        intro r hr
        rw [List.mem_cons, List.mem_singleton] at hr
        rcases hr with rfl | rfl
        · exact ⟨rfl, rfl, rfl, by decide, by decide⟩
        · exact ⟨rfl, rfl, rfl, by decide, by decide⟩)
      (by decide) (by norm_num)
  rw [h1]
  simp only [List.map_cons, List.map_nil]
  rw [hq]
  rfl

lemma find?_decomp {α : Type} (p : α → Bool) :
    ∀ (l : List α) (a : α), l.find? p = some a →
      ∃ l₁ l₂, l = l₁ ++ a :: l₂ ∧ (∀ x ∈ l₁, ¬ p x = true) ∧ p a = true := by
  intro l
  induction l with
  | nil => intro a h; simp [List.find?] at h
  | cons x xs ih =>
      intro a h
      by_cases hx : p x = true
      · rw [List.find?_cons_of_pos _ hx] at h
        obtain rfl : x = a := by injection h
        exact ⟨[], xs, rfl, by simp, hx⟩
      · rw [List.find?_cons_of_neg _ hx] at h
        obtain ⟨l₁, l₂, rfl, h1, h2⟩ := ih a h
        refine ⟨x :: l₁, l₂, rfl, ?_, h2⟩
        intro y hy
        rw [List.mem_cons] at hy
        rcases hy with rfl | hy
        · exact hx
        · exact h1 y hy

/-- C10: merging a valid candidate into the existing matching line rewrites
exactly that line in place — id, product key, title, variant label, price,
sku, image and creation time are kept, only quantity and total change, the
total being recomputed from the EXISTING line's price — and every other line
is untouched. -/
theorem addItem_merge_frame (s : CartState) (r : AddRequest) (now : Nat) (ex : CartItem)
    (hids : (s.items.map CartItem.id).Nodup)
    (hfind : s.items.find? (fun it => sameLine it r) = some ex)
    (hvalid : ¬(r.productId = "" ∨ r.title = "" ∨ r.price < 0 ∨ r.quantity ≤ 0)) :
    ∃ l₁ l₂ ex', s.items = l₁ ++ ex :: l₂ ∧
      (addItem s r now).1.items = l₁ ++ ex' :: l₂ ∧
      ex'.id = ex.id ∧ ex'.productId = ex.productId ∧ ex'.itemId = ex.itemId ∧
      ex'.title = ex.title ∧ ex'.variantTitle = ex.variantTitle ∧
      ex'.price = ex.price ∧ ex'.sku = ex.sku ∧ ex'.image = ex.image ∧
      ex'.createdAt = ex.createdAt ∧
      ex'.quantity = ex.quantity + r.quantity ∧
      ex'.total = round2 (ex.price * ((ex.quantity + r.quantity : ℤ) : ℚ)) ∧
      (addItem s r now).2 = none := by
  obtain ⟨l₁, l₂, hsplit, hl₁, hpa⟩ := find?_decomp (fun it => sameLine it r) s.items ex hfind
  have hids2 : ∀ x ∈ l₁, x.id ≠ ex.id := by
    intro x hx
    rw [hsplit, List.map_append, List.map_cons] at hids
    obtain ⟨h1, h2, hdis⟩ := List.nodup_append.mp hids
    intro hxe
    exact hdis (List.mem_map_of_mem CartItem.id hx) (by rw [hxe]; exact List.mem_cons_self _ _)
  have hids3 : ∀ x ∈ l₂, x.id ≠ ex.id := by
    intro x hx
    rw [hsplit, List.map_append, List.map_cons] at hids
    obtain ⟨h1, h2, hdis⟩ := List.nodup_append.mp hids
    intro hxe
    have := (List.nodup_cons.mp h2).1
    exact this (by rw [← hxe]; exact List.mem_map_of_mem CartItem.id hx)
  refine ⟨l₁, l₂, mergeInto ex r, hsplit, ?_, rfl, rfl, rfl, rfl, rfl, rfl, rfl, rfl, rfl,
    rfl, rfl, ?_⟩
  · simp only [addItem, if_neg hvalid, hfind]
    rw [hsplit, List.map_append, List.map_cons]
    rw [if_pos rfl]
    congr 1
    · refine (List.map_congr_left ?_).trans (List.map_id l₁)
      intro a ha
      exact if_neg (hids2 a ha)
    · congr 1
      refine (List.map_congr_left ?_).trans (List.map_id l₂)
      intro a ha
      exact if_neg (hids3 a ha)
  · simp only [addItem, if_neg hvalid, hfind]

def reqB : AddRequest :=
  { productId := "p", itemId := none, title := "T2", variantTitle := none,
    price := 1, quantity := 2, image := none, sku := none,
    sessionId := none, userId := none }

/-- Witness for C10. -/
theorem addItem_merge_frame_witness :
    (addItem oneItemCart reqB 5).2 = none := by
  obtain ⟨l₁, l₂, ex', h1, h2, h3, h4, h5, h6, h7, h8, h9, h10, h11, h12, h13, herr⟩ :=
    addItem_merge_frame oneItemCart reqB 5 sampleItem (by decide) (by decide) (by decide)
  exact herr

/-! ### Order assembly theorems -/

lemma itemWrites_header (cart : CartState) (idBase : Nat) :
    (orderItemTransactions cart idBase).filterMap writeHeader = [] := by
  simp [orderItemTransactions, List.filterMap_map, writeHeader, Function.comp]

lemma itemWrites_data (cart : CartState) (idBase : Nat) :
    (orderItemTransactions cart idBase).filterMap writeItemData
      = cart.items.map orderItemData := by
  unfold orderItemTransactions
  have hlen : cart.items.length ≤ (orderItemIdsOf cart idBase).length := by
    simp [orderItemIdsOf]
  have h1 : ∀ l : List (CartItem × Nat),
      (l.map (fun p => Write.orderItemUpdate p.2 (orderItemData p.1))).filterMap writeItemData
        = l.map (fun p => orderItemData p.1) := by
    intro l
    induction l with
    | nil => rfl
    | cons hd tl ih => simp [List.filterMap_cons, writeItemData, ih]
  rw [h1]
  have h2 : (cart.items.zip (orderItemIdsOf cart idBase)).map (fun p => orderItemData p.1)
      = ((cart.items.zip (orderItemIdsOf cart idBase)).map Prod.fst).map orderItemData := by
    rw [List.map_map]
    rfl
  rw [h2, List.map_fst_zip _ _ hlen]

lemma itemWrites_ids (cart : CartState) (idBase : Nat) :
    (orderItemTransactions cart idBase).filterMap writeItemId
      = orderItemIdsOf cart idBase := by
  unfold orderItemTransactions
  have hlen : (orderItemIdsOf cart idBase).length ≤ cart.items.length := by
    simp [orderItemIdsOf]
  have h1 : ∀ l : List (CartItem × Nat),
      (l.map (fun p => Write.orderItemUpdate p.2 (orderItemData p.1))).filterMap writeItemId
        = l.map Prod.snd := by
    intro l
    induction l with
    | nil => rfl
    | cons hd tl ih => simp [List.filterMap_cons, writeItemId, ih]
  rw [h1, List.map_snd_zip _ _ hlen]

lemma itemWrites_links (cart : CartState) (idBase : Nat) :
    (orderItemTransactions cart idBase).filterMap writeLink = [] := by
  simp [orderItemTransactions, List.filterMap_map, writeLink, Function.comp]

lemma linkWrites_header (cart : CartState) (idBase : Nat) :
    (linkTransactions cart idBase).filterMap writeHeader = [] := by
  simp [linkTransactions, List.filterMap_map, writeHeader, Function.comp]

lemma linkWrites_data (cart : CartState) (idBase : Nat) :
    (linkTransactions cart idBase).filterMap writeItemData = [] := by
  simp [linkTransactions, List.filterMap_map, writeItemData, Function.comp]

lemma linkWrites_ids (cart : CartState) (idBase : Nat) :
    (linkTransactions cart idBase).filterMap writeItemId = [] := by
  simp [linkTransactions, List.filterMap_map, writeItemId, Function.comp]

lemma linkWrites_links (cart : CartState) (idBase : Nat) :
    (linkTransactions cart idBase).filterMap writeLink
      = (orderItemIdsOf cart idBase).map (fun iid => (idBase, iid)) := by
  unfold linkTransactions
  induction orderItemIdsOf cart idBase with
  | nil => rfl
  | cons hd tl ih => simp [List.filterMap_cons, writeLink, ih]

lemma handlePlaceOrder_success_eq (cart : CartState) (taxRate : ℚ) (addr : Address)
    (customer : Option Customer) (userEmail : Option String) (orderNumber : String)
    (idBase now : Nat) (hne : cart.items ≠ []) :
    handlePlaceOrder cart taxRate (some addr) customer userEmail orderNumber idBase now true =
      { errorAlert := none
        batches := [successBatch cart taxRate addr customer userEmail orderNumber idBase now]
        finalCart := clearCart cart
        placedOrder := some (orderDataOf cart taxRate addr customer userEmail orderNumber
          idBase now) } := by
  have hlen : ¬(cart.items.length = 0) := by
    simpa [List.length_eq_zero] using hne
  unfold handlePlaceOrder
  rw [if_neg hlen]
  rfl

/-- C2: on a non-empty cart with a present, structurally valid address,
`handlePlaceOrder` issues exactly one `db.transact` batch containing one
order-header write, one line-item write per cart line (with the cart line's
data), and a link pairing the header id with each line-item record id; the
written order's subtotal is the cart's subtotal and the cart is empty
afterwards. -/
theorem placeOrder_atomic (cart : CartState) (taxRate : ℚ) (addr : Address)
    (customer : Option Customer) (userEmail : Option String) (orderNumber : String)
    (idBase now : Nat)
    (hne : cart.items ≠ [])
    (hva : addr.street ≠ "" ∧ addr.city ≠ "" ∧ addr.state ≠ "" ∧ addr.zipCode ≠ "") :
    ∃ b oid od,
      (handlePlaceOrder cart taxRate (some addr) customer userEmail orderNumber
        idBase now true).batches = [b] ∧
      b.filterMap writeHeader = [(oid, od)] ∧
      b.filterMap writeItemData = cart.items.map orderItemData ∧
      b.filterMap writeLink = (b.filterMap writeItemId).map (fun iid => (oid, iid)) ∧
      od.subtotal = (calcTotals cart.items taxRate).subtotal ∧
      (handlePlaceOrder cart taxRate (some addr) customer userEmail orderNumber
        idBase now true).placedOrder = some od ∧
      (handlePlaceOrder cart taxRate (some addr) customer userEmail orderNumber
        idBase now true).errorAlert = none ∧
      (handlePlaceOrder cart taxRate (some addr) customer userEmail orderNumber
        idBase now true).finalCart.items = [] := by
  rw [handlePlaceOrder_success_eq cart taxRate addr customer userEmail orderNumber idBase now hne]
  refine ⟨successBatch cart taxRate addr customer userEmail orderNumber idBase now, idBase,
    orderDataOf cart taxRate addr customer userEmail orderNumber idBase now,
    rfl, ?_, ?_, ?_, rfl, rfl, rfl, rfl⟩
  · simp [successBatch, List.filterMap_cons, writeHeader, List.filterMap_append,
      itemWrites_header, linkWrites_header]
  · simp [successBatch, List.filterMap_cons, writeItemData, List.filterMap_append,
      itemWrites_data, linkWrites_data]
  · simp [successBatch, List.filterMap_cons, writeLink, writeItemId, List.filterMap_append,
      itemWrites_links, linkWrites_links, itemWrites_ids, linkWrites_ids]

def ringItem : CartItem :=
  { id := 0, productId := "r1", itemId := none, title := "Ring", variantTitle := none,
    price := 100, quantity := 1, total := 100, image := none, sku := none,
    sessionId := none, userId := none, createdAt := 0 }

def chainItem : CartItem :=
  { id := 1, productId := "c1", itemId := none, title := "Chain", variantTitle := none,
    price := 50, quantity := 2, total := 100, image := none, sku := none,
    sessionId := none, userId := none, createdAt := 0 }

def ringChainCart : CartState := ⟨[ringItem, chainItem], 2⟩

/-- Witness for C2, on the Ring/Chain scenario cart. -/
theorem placeOrder_atomic_witness :
    (handlePlaceOrder ringChainCart (1/10) (some goodAddr) none none "ORD" 100 0
      true).errorAlert = none ∧
    (handlePlaceOrder ringChainCart (1/10) (some goodAddr) none none "ORD" 100 0
      true).finalCart.items = [] := by
  obtain ⟨b, oid, od, h1, h2, h3, h4, h5, h6, h7, h8⟩ :=
    placeOrder_atomic ringChainCart (1/10) goodAddr none none "ORD" 100 0 (by decide)
      (by refine ⟨?_, ?_, ?_, ?_⟩ <;> decide)
  exact ⟨h7, h8⟩

/-- C7: on an empty cart, `handlePlaceOrder` alerts `Empty Cart`, issues no
`db.transact` call, writes no order, and leaves the cart as is. -/
theorem placeOrder_empty_cart (cart : CartState) (taxRate : ℚ)
    (selectedAddress : Option Address) (customer : Option Customer)
    (userEmail : Option String) (orderNumber : String) (idBase now : Nat)
    (transactOk : Bool) (h : cart.items = []) :
    handlePlaceOrder cart taxRate selectedAddress customer userEmail orderNumber
        idBase now transactOk =
      { errorAlert := some "Empty Cart", batches := [], finalCart := cart,
        placedOrder := none } := by
  unfold handlePlaceOrder
  rw [if_pos (by simp [h])]

/-- Witness for C7. -/
theorem placeOrder_empty_cart_witness :
    handlePlaceOrder emptyCart 0 (some goodAddr) none none "N" 0 0 true =
      { errorAlert := some "Empty Cart", batches := [], finalCart := emptyCart,
        placedOrder := none } :=
  placeOrder_empty_cart emptyCart 0 (some goodAddr) none none "N" 0 0 true rfl

/-- C6 counterexample: an address whose street, city, region and postal
fields are ALL empty is accepted without any `InvalidAddress`-style failure —
the order is placed, a write batch is issued and the cart is cleared. -/
theorem placeOrder_blank_address_accepted :
    (handlePlaceOrder oneItemCart (1/10) (some blankAddr) none none "N" 10 0
      true).errorAlert = none ∧
    (handlePlaceOrder oneItemCart (1/10) (some blankAddr) none none "N" 10 0
      true).batches ≠ [] ∧
    (handlePlaceOrder oneItemCart (1/10) (some blankAddr) none none "N" 10 0
      true).finalCart.items = [] := by
  refine ⟨rfl, by decide, rfl⟩

/-- C6 (amended): with an absent address `handlePlaceOrder` fails with the
`Address Required` alert, issues no write and leaves the cart unchanged; a
PRESENT address is never structurally validated — any present address
proceeds to order placement. -/
theorem placeOrder_missing_address (cart : CartState) (taxRate : ℚ)
    (customer : Option Customer) (userEmail : Option String) (orderNumber : String)
    (idBase now : Nat) (transactOk : Bool) (hne : cart.items ≠ []) :
    handlePlaceOrder cart taxRate none customer userEmail orderNumber idBase now
        transactOk =
      { errorAlert := some "Address Required", batches := [], finalCart := cart,
        placedOrder := none } ∧
    ∀ addr : Address,
      (handlePlaceOrder cart taxRate (some addr) customer userEmail orderNumber
        idBase now true).errorAlert = none := by
  have hlen : ¬(cart.items.length = 0) := by
    simpa [List.length_eq_zero] using hne
  constructor
  · unfold handlePlaceOrder
    rw [if_neg hlen]
  · intro addr
    rw [handlePlaceOrder_success_eq cart taxRate addr customer userEmail orderNumber
      idBase now hne]

/-- Witness for C6 (amended). -/
theorem placeOrder_missing_address_witness :
    handlePlaceOrder oneItemCart (1/10) none none none "N" 7 0 true =
      { errorAlert := some "Address Required", batches := [], finalCart := oneItemCart,
        placedOrder := none } :=
  (placeOrder_missing_address oneItemCart (1/10) none none "N" 7 0 true (by decide)).1

lemma handlePlaceOrder_batches (cart : CartState) (taxRate : ℚ) (addr : Address)
    (customer : Option Customer) (userEmail : Option String) (orderNumber : String)
    (idBase now : Nat) (transactOk : Bool) (hne : cart.items ≠ []) :
    (handlePlaceOrder cart taxRate (some addr) customer userEmail orderNumber
        idBase now transactOk).batches =
      [successBatch cart taxRate addr customer userEmail orderNumber idBase now] := by
  have hlen : ¬(cart.items.length = 0) := by
    simpa [List.length_eq_zero] using hne
  unfold handlePlaceOrder
  rw [if_neg hlen]
  cases transactOk <;> rfl

/-- C8: every line-item record persisted by order assembly carries the
hardcoded `taxRate = 0.08` and `taxAmount = lineTotal × 0.08`, for every
value of the configurable cart tax rate, while the order header's
`taxAmount` is the cart-level tax computed from that configurable rate. -/
theorem orderItems_hardcoded_tax (cart : CartState) (taxRate : ℚ) (addr : Address)
    (customer : Option Customer) (userEmail : Option String) (orderNumber : String)
    (idBase now : Nat) (transactOk : Bool) (hne : cart.items ≠ []) :
    ((handlePlaceOrder cart taxRate (some addr) customer userEmail orderNumber
        idBase now transactOk).batches.flatten.filterMap writeItemData)
      = cart.items.map orderItemData ∧
    (∀ it ∈ cart.items, (orderItemData it).taxRate = 8 / 100 ∧
      (orderItemData it).taxAmount = (orderItemData it).lineTotal * (8 / 100)) ∧
    ((handlePlaceOrder cart taxRate (some addr) customer userEmail orderNumber
        idBase now transactOk).batches.flatten.filterMap writeHeader).map Prod.snd
      = [orderDataOf cart taxRate addr customer userEmail orderNumber idBase now] ∧
    (orderDataOf cart taxRate addr customer userEmail orderNumber idBase now).taxAmount
      = (calcTotals cart.items taxRate).tax := by
  rw [handlePlaceOrder_batches cart taxRate addr customer userEmail orderNumber
    idBase now transactOk hne]
  refine ⟨?_, ?_, ?_, rfl⟩
  · simp [successBatch, List.filterMap_cons, writeItemData, List.filterMap_append,
      itemWrites_data, linkWrites_data]
  · intro it _
    exact ⟨rfl, rfl⟩
  · simp [successBatch, List.filterMap_cons, writeHeader, List.filterMap_append,
      itemWrites_header, linkWrites_header]

/-- Witness for C8. -/
theorem orderItems_hardcoded_tax_witness :
    ((handlePlaceOrder oneItemCart (1/2) (some goodAddr) none none "N" 3 0
        true).batches.flatten.filterMap writeItemData)
      = oneItemCart.items.map orderItemData :=
  (orderItems_hardcoded_tax oneItemCart (1/2) goodAddr none none "N" 3 0 true
    (by decide)).1

end Silvers
